import Mathlib

/-!
Shallow embedding of the SUMOIOT speed-radar detection engine
(src/sensorsScripts/speedRadar.py, src/simulation.py, src/driversManagement.py).

Conventions of the embedding:
* Python floats are modelled as rationals; the constant 3.6 is the rational 18/5.
* Simulation steps (ticks) are integers, as in Python (so subtraction is exact).
* The Python dict `violation_cooldowns` is an association list with unique keys;
  dict assignment is `dictSet` (sets/overwrites the entry for the key).
* TraCI telemetry calls that may raise "vehicle not found" are modelled as
  Option-valued functions; the bare `except: pass` of the source corresponds to
  the `none` branches.
* `math.sqrt(d) <= radius` is modelled as `d ≤ radius ^ 2`, which is equivalent
  whenever the branch is reached (the bounding-box test has already forced
  `radius ≥ 0`, and for `radius ≥ 0`, `sqrt d ≤ radius ↔ d ≤ radius ^ 2`).
-/

/-- State of one `SpeedRadar` object (speedRadar.py lines 14-39).
The bounding-box fields are set by the constructor from center ± radius and are
never mutated afterwards.  `edges_done` models `edges_initialized` (renamed). -/
structure SpeedRadar where
  id : String
  simulation_id : Option String
  x : ℚ
  y : ℚ
  speed_limit : ℚ
  detection_radius : ℚ
  description : String
  bbox_min_x : ℚ
  bbox_max_x : ℚ
  bbox_min_y : ℚ
  bbox_max_y : ℚ
  cooldown_steps : ℤ
  violation_cooldowns : List (String × ℤ)
  nearby_edges : List String
  edges_done : Bool
  total_violations : ℕ
  total_checks : ℕ
deriving DecidableEq, Repr

/-- `SpeedRadar.__init__` (speedRadar.py lines 14-39): bounding box is
center ± radius, cooldown window 100 steps, empty cooldown table, empty
nearby-edge cache, zero counters. -/
def SpeedRadar.init (radar_id : String) (x y speed_limit detection_radius : ℚ)
    (description : String) (simulation_id : Option String) : SpeedRadar where
  id := radar_id
  simulation_id := simulation_id
  x := x
  y := y
  speed_limit := speed_limit
  detection_radius := detection_radius
  description := description
  bbox_min_x := x - detection_radius
  bbox_max_x := x + detection_radius
  bbox_min_y := y - detection_radius
  bbox_max_y := y + detection_radius
  cooldown_steps := 100
  violation_cooldowns := []
  nearby_edges := []
  edges_done := false
  total_violations := 0
  total_checks := 0

/-- Python dict lookup `d.get(k)` on the association-list model. -/
def dictGet (t : List (String × ℤ)) (k : String) : Option ℤ :=
  match t with
  | [] => none
  | (k2, v) :: rest => if k = k2 then some v else dictGet rest k

/-- Removal of a key from the association-list model of a dict. -/
def dictRemove (t : List (String × ℤ)) (k : String) : List (String × ℤ) :=
  match t with
  | [] => []
  | p :: rest => if p.1 = k then dictRemove rest k else p :: dictRemove rest k

/-- Python dict assignment `d[k] = v` on the association-list model:
sets or overwrites the entry for `k`, leaves every other key unchanged. -/
def dictSet (t : List (String × ℤ)) (k : String) (v : ℤ) : List (String × ℤ) :=
  (k, v) :: dictRemove t k

/-- `self.total_checks += 1` (speedRadar.py line 120). -/
def incChecks (r : SpeedRadar) : SpeedRadar :=
  { r with total_checks := r.total_checks + 1 }

/-- The state change of speedRadar.py lines 143-145: record the violation tick
for the vehicle and increment the violation counter. -/
def recordViolationState (r : SpeedRadar) (vehicle_id : String) (current_step : ℤ) :
    SpeedRadar :=
  { r with
      violation_cooldowns := dictSet r.violation_cooldowns vehicle_id current_step,
      total_violations := r.total_violations + 1 }

/-- The cooldown test of speedRadar.py lines 122-125: the vehicle is suppressed
iff it has a cooldown entry and `current_step - entry < cooldown_steps`. -/
def isSuppressed (r : SpeedRadar) (vehicle_id : String) (current_step : ℤ) : Bool :=
  match dictGet r.violation_cooldowns vehicle_id with
  | some caught => decide (current_step - caught < r.cooldown_steps)
  | none => false

/-- `SpeedRadar.is_in_detection_zone` (speedRadar.py lines 101-113): bounding
box first, exact (squared) circle test only if the box test passes. -/
def SpeedRadar.is_in_detection_zone (r : SpeedRadar) (vehicle_x vehicle_y : ℚ) : Bool :=
  if r.bbox_min_x ≤ vehicle_x ∧ vehicle_x ≤ r.bbox_max_x ∧
     r.bbox_min_y ≤ vehicle_y ∧ vehicle_y ≤ r.bbox_max_y then
    decide ((vehicle_x - r.x) ^ 2 + (vehicle_y - r.y) ^ 2 ≤ r.detection_radius ^ 2)
  else
    false

/-- The violation dict built by speedRadar.py lines 150-163 (and, with the same
keys, lines 383-396). -/
structure Violation where
  simulation_id : Option String
  radar_id : String
  vehicle_id : String
  license_plate : String
  timestamp : ℤ
  location : ℚ × ℚ
  speed_limit_ms : ℚ
  speed_limit_kmh : ℚ
  actual_speed_ms : ℚ
  actual_speed_kmh : ℚ
  overspeed_kmh : ℚ
  description : String
deriving DecidableEq, Repr

/-- Construction of the violation dict (speedRadar.py lines 140-163):
`overspeed = current_speed - self.speed_limit`, `overspeed_kmh = overspeed * 3.6`. -/
def mkViolation (r : SpeedRadar) (vehicle_id license_plate : String) (current_step : ℤ)
    (pos : ℚ × ℚ) (current_speed : ℚ) : Violation where
  simulation_id := r.simulation_id
  radar_id := r.id
  vehicle_id := vehicle_id
  license_plate := license_plate
  timestamp := current_step
  location := pos
  speed_limit_ms := r.speed_limit
  speed_limit_kmh := r.speed_limit * (18 / 5)
  actual_speed_ms := current_speed
  actual_speed_kmh := current_speed * (18 / 5)
  overspeed_kmh := (current_speed - r.speed_limit) * (18 / 5)
  description := r.description

/-- The TraCI telemetry interface as used by the detection code.
`getPosition`/`getSpeed` may fail (vehicle left the simulation); `getPlate`
models `get_vehicle_plate` of driversManagement.py lines 43-59, which catches
every exception and always returns a string. -/
structure Traci where
  getPosition : String → Option (ℚ × ℚ)
  getSpeed : String → Option ℚ
  getPlate : String → String

/-- `SpeedRadar.check_vehicle` (speedRadar.py lines 115-170).
Order of events in the source: the check counter is incremented first; then the
cooldown test; then (inside try/except) position lookup, zone test, speed
lookup, speed test; on a violation the cooldown entry and violation counter are
updated and the violation dict is returned.  A failing telemetry lookup lands
in `except: pass` and returns `None`. -/
def check_vehicle (traci : Traci) (r : SpeedRadar) (vehicle_id : String)
    (current_step : ℤ) : SpeedRadar × Option Violation :=
  let r1 := incChecks r
  if isSuppressed r1 vehicle_id current_step then (r1, none)
  else
    match traci.getPosition vehicle_id with
    | none => (r1, none)
    | some pos =>
      if r1.is_in_detection_zone pos.1 pos.2 then
        match traci.getSpeed vehicle_id with
        | none => (r1, none)
        | some current_speed =>
          if r1.speed_limit < current_speed then
            (recordViolationState r1 vehicle_id current_step,
             some (mkViolation r1 vehicle_id (traci.getPlate vehicle_id) current_step pos
                current_speed))
          else (r1, none)
      else (r1, none)

/-- `SpeedRadar.cleanup_old_cooldowns` (speedRadar.py lines 172-177): delete
exactly the entries with `current_step - step >= cooldown_steps`. -/
def cleanup_old_cooldowns (r : SpeedRadar) (current_step : ℤ) : SpeedRadar :=
  { r with
      violation_cooldowns :=
        r.violation_cooldowns.filter
          (fun p => !(decide (current_step - p.2 ≥ r.cooldown_steps))) }

/-!
Telemetry snapshot and topology.  A snapshot fixes, for the duration of one
tick, each vehicle's id, stored license plate, current edge, position and
speed.  TraCI lookups over the snapshot resolve a vehicle id to the first
matching vehicle.
-/

/-- One vehicle of a telemetry snapshot. -/
structure Vehicle where
  vid : String
  plate : String
  edge : String
  pos : ℚ × ℚ
  speed : ℚ
deriving DecidableEq, Repr

/-- One lane's shape (an ordered point sequence), as returned by
`traci.lane.getShape`. -/
structure Lane where
  shape : List (ℚ × ℚ)
deriving DecidableEq, Repr

/-- One topology edge with its lanes; an edge id starting with a colon is an
internal (junction) edge. -/
structure Edge where
  eid : String
  lanes : List Lane
deriving DecidableEq, Repr

/-- The TraCI view of a snapshot: `getPosition`/`getSpeed` resolve the vehicle
id in the snapshot, failing (`none`) when the vehicle is absent; `getPlate`
returns the stored plate if set, otherwise the vehicle id
(driversManagement.py lines 43-59). -/
def snapTraci (vehicles : List Vehicle) : Traci where
  getPosition vid := (vehicles.find? (fun v => v.vid == vid)).map (fun v => v.pos)
  getSpeed vid := (vehicles.find? (fun v => v.vid == vid)).map (fun v => v.speed)
  getPlate vid :=
    match vehicles.find? (fun v => v.vid == vid) with
    | some v => if v.plate == "" then vid else v.plate
    | none => vid

/-- Python's `edge_id.startswith(':')` (speedRadar.py line 53): the id's first
character is a colon. -/
def isInternalEdge (eid : String) : Bool :=
  eid.data.head? == some ':'

/-- `SpeedRadar.find_nearby_edges` (speedRadar.py lines 41-83): starting from
the empty cache, an edge is recorded iff it is not internal (id starting with
a colon) and some point of some of its lane shapes lies in the detection zone;
each qualifying edge is recorded once, in edge-list order.  Guarded by
`edges_done` so a second call is a no-op. -/
def find_nearby_edges (edges : List Edge) (r : SpeedRadar) : SpeedRadar :=
  if r.edges_done then r
  else
    { r with
        nearby_edges :=
          r.nearby_edges ++
            (edges.filter (fun e =>
              !(isInternalEdge e.eid) &&
              e.lanes.any (fun l =>
                l.shape.any (fun p => r.is_in_detection_zone p.1 p.2)))).map (fun e => e.eid),
        edges_done := true }

/-- `SpeedRadar.get_nearby_vehicles` (speedRadar.py lines 85-99): the vehicles
located on one of the radar's nearby edges (each snapshot vehicle is on exactly
one edge, so the union over per-edge queries is this filter). -/
def get_nearby_vehicles (vehicles : List Vehicle) (r : SpeedRadar) : List Vehicle :=
  vehicles.filter (fun v => decide (v.edge ∈ r.nearby_edges))

/-- The inner loop shared by `_check_with_edge_based` and
`_check_radar_full_scan`: run `check_vehicle` on each candidate id in order,
threading the radar state, collecting the returned violations. -/
def checkRadarVehicles (traci : Traci) (r : SpeedRadar) (vids : List String)
    (current_step : ℤ) : SpeedRadar × List Violation :=
  match vids with
  | [] => (r, [])
  | vid :: rest =>
    let step1 := check_vehicle traci r vid current_step
    let steps := checkRadarVehicles traci step1.1 rest current_step
    (steps.1, step1.2.toList ++ steps.2)

/-- The periodic sweep of speedRadar.py lines 325-328 / 345-348: on steps
divisible by 500, every radar's expired cooldowns are removed. -/
def sweepIfDue (radars : List SpeedRadar) (current_step : ℤ) : List SpeedRadar :=
  if current_step % 500 == 0 then
    radars.map (fun r => cleanup_old_cooldowns r current_step)
  else radars

/-- The per-radar loop of `RadarManager._check_with_edge_based`
(speedRadar.py lines 336-343). -/
def edgeBasedCore (vehicles : List Vehicle) (radars : List SpeedRadar)
    (current_step : ℤ) : List SpeedRadar × List Violation :=
  match radars with
  | [] => ([], [])
  | r :: rs =>
    let vids := (get_nearby_vehicles vehicles r).map (fun v => v.vid)
    let here := checkRadarVehicles (snapTraci vehicles) r vids current_step
    let rest := edgeBasedCore vehicles rs current_step
    (here.1 :: rest.1, here.2 ++ rest.2)

/-- `RadarManager._check_with_edge_based` (speedRadar.py lines 330-348):
the per-radar loop followed by the handler's own periodic cooldown sweep. -/
def edgeBasedTick (vehicles : List Vehicle) (radars : List SpeedRadar)
    (current_step : ℤ) : List SpeedRadar × List Violation :=
  let core := edgeBasedCore vehicles radars current_step
  (sweepIfDue core.1 current_step, core.2)

/-- The inner radar loop of `_check_with_full_scan` (speedRadar.py lines
414-418): one vehicle id against every radar in order. -/
def checkVehicleAllRadars (traci : Traci) (radars : List SpeedRadar) (vid : String)
    (current_step : ℤ) : List SpeedRadar × List Violation :=
  match radars with
  | [] => ([], [])
  | r :: rs =>
    let here := check_vehicle traci r vid current_step
    let rest := checkVehicleAllRadars traci rs vid current_step
    (here.1 :: rest.1, here.2.toList ++ rest.2)

/-- The outer vehicle loop of `_check_with_full_scan` (speedRadar.py lines
404-418). -/
def fullScanCore (traci : Traci) (radars : List SpeedRadar) (vids : List String)
    (current_step : ℤ) : List SpeedRadar × List Violation :=
  match vids with
  | [] => (radars, [])
  | vid :: rest =>
    let here := checkVehicleAllRadars traci radars vid current_step
    let steps := fullScanCore traci here.1 rest current_step
    (steps.1, here.2 ++ steps.2)

/-- `RadarManager._check_with_full_scan` over a snapshot: every snapshot
vehicle against every radar (the empty-vehicle early return coincides with the
empty fold). -/
def fullScanTick (vehicles : List Vehicle) (radars : List SpeedRadar)
    (current_step : ℤ) : List SpeedRadar × List Violation :=
  fullScanCore (snapTraci vehicles) radars (vehicles.map (fun v => v.vid)) current_step

/-- The per-candidate body of `RadarManager._check_with_subscriptions`
(speedRadar.py lines 362-398): cooldown test, zone test on the subscription
position, speed test on the subscription speed; on a violation the cooldown
entry and the violation counter are updated and the violation dict (same keys
as in `check_vehicle`) is emitted.  Note: no check counter is touched. -/
def subCheckVehicle (traci : Traci) (r : SpeedRadar) (vehicle_id : String)
    (speed : ℚ) (position : ℚ × ℚ) (current_step : ℤ) : SpeedRadar × Option Violation :=
  if isSuppressed r vehicle_id current_step then (r, none)
  else if r.is_in_detection_zone position.1 position.2 then
    if r.speed_limit < speed then
      (recordViolationState r vehicle_id current_step,
       some (mkViolation r vehicle_id (traci.getPlate vehicle_id) current_step position speed))
    else (r, none)
  else (r, none)

/-!  Startup / configuration loading (C7) and remote delivery (C8). -/

/-- One JSON object found in the configuration sequence, as read by
speedRadar.py lines 217-224: the four required keys (read with `[...]`, raising
`KeyError` when absent) and the two optional keys (read with `.get`, never
raising).  A present value is modelled as well-typed. -/
structure RadarRecord where
  id : Option String
  x : Option ℚ
  y : Option ℚ
  speed_limit : Option ℚ
  detection_radius : Option ℚ
  description : Option String
deriving Repr

/-- One item produced by iterating the parsed configuration: either a JSON
object (a candidate radar record) or any non-object item, whose subscripting
with a string key raises `TypeError` (this also covers a dict or string top
level, whose iteration yields strings). -/
inductive ConfigItem where
  | record (rec : RadarRecord)
  | nonRecord
deriving Repr

/-- Outcome of reading and parsing the radar configuration file
(speedRadar.py lines 213-215): the file may be absent (`FileNotFoundError`),
unparsable (`json.JSONDecodeError`), a valid-JSON non-iterable (a number:
`TypeError` at the `for` statement), or a valid-JSON iterable yielding a
sequence of items. -/
inductive ConfigResult where
  | missing
  | badJson
  | notIterable
  | parsed (items : List ConfigItem)
deriving Repr

/-- The four required keys are present and the item is an object; exactly when
this fails does speedRadar.py lines 218-222 raise `KeyError`/`TypeError`. -/
def itemOk (item : ConfigItem) : Bool :=
  match item with
  | .record rec => rec.id.isSome && rec.x.isSome && rec.y.isSome && rec.speed_limit.isSome
  | .nonRecord => false

/-- The `SpeedRadar(...)` construction of speedRadar.py lines 218-226 for one
item: `none` models the uncaught `KeyError`/`TypeError` raised for a malformed
item (radius defaults to 80, description to the empty string). -/
def buildRadar (simulation_id : Option String) (item : ConfigItem) : Option SpeedRadar :=
  match item with
  | .nonRecord => none
  | .record rec =>
    match rec.id, rec.x, rec.y, rec.speed_limit with
    | some i, some x, some y, some lim =>
      some (SpeedRadar.init i x y lim (rec.detection_radius.getD 80)
        (rec.description.getD "") simulation_id)
    | _, _, _, _ => none

/-- The record loop of speedRadar.py lines 217-227: `none` when some item
raises (the radars appended before the raise are irrelevant, since the
exception escapes `load_radars` and kills the process). -/
def buildRadars (simulation_id : Option String) (items : List ConfigItem) :
    Option (List SpeedRadar) :=
  match items with
  | [] => some []
  | item :: rest =>
    match buildRadar simulation_id item with
    | none => none
    | some r => (buildRadars simulation_id rest).map (fun rs => r :: rs)

/-- What a `load_radars` call does: return normally (with the loaded radars
and the boolean result), or let an exception escape. -/
inductive LoadOutcome where
  | returned (radars : List SpeedRadar) (load_ok : Bool)
  | raised
deriving Repr

/-- `RadarManager.load_radars` (speedRadar.py lines 211-241): a missing file
(`FileNotFoundError`) prints a warning and returns `False`; a JSON parse error
(`json.JSONDecodeError`) prints an error and returns `False`; both leave zero
radars loaded.  Any other exception of the `try` body — `TypeError` from a
non-iterable top level or a non-object item, `KeyError` from a record missing
a required key — has no matching handler and escapes.  On success every
record's radar is built and `True` is returned. -/
def load_radars (simulation_id : Option String) (cfg : ConfigResult) : LoadOutcome :=
  match cfg with
  | .missing => .returned [] false
  | .badJson => .returned [] false
  | .notIterable => .raised
  | .parsed items =>
    match buildRadars simulation_id items with
    | some radars => .returned radars true
    | none => .raised

/-- What becomes of the process at startup. -/
inductive StartupOutcome where
  | entersLoop (radars : List SpeedRadar) (load_ok : Bool)
  | terminated
deriving Repr

/-- simulation.py lines 14-15 and 43-63: the script calls `load_radars` at
module level with no handler.  If the call returns, its boolean result is
ignored and the script unconditionally proceeds into the stepping loop; if the
call raises, the uncaught exception terminates the process before the loop. -/
def simulationStartup (simulation_id : Option String) (cfg : ConfigResult) :
    StartupOutcome :=
  match load_radars simulation_id cfg with
  | .returned radars load_ok => .entersLoop radars load_ok
  | .raised => .terminated

/-- Result of one HTTP POST attempt: success, a connection error
(`requests.exceptions.ConnectionError`), or any other exception
(timeout, etc.). -/
inductive NetResult where
  | ok
  | connError
  | otherError
deriving DecidableEq, Repr

/-- Observable outcome of the remote-delivery block. -/
inductive DeliveryOutcome where
  | delivered
  | warnedDropped
  | raised
deriving DecidableEq, Repr

/-- Trace of the remote delivery: the addresses actually attempted, in order,
and the outcome. -/
structure RemoteDelivery where
  attempts : List String
  outcome : DeliveryOutcome
deriving DecidableEq, Repr

/-- The primary collector address tried first (speedRadar.py line 459). -/
def primaryUrl : String := "http://localhost:5000/api/violations"

/-- The fallback collector address (speedRadar.py line 464). -/
def fallbackUrl : String := "http://backend:5000/api/violations"

/-- The backend-send block of `RadarManager._log_violation` (speedRadar.py
lines 455-467): POST to the primary address; if that raises a connection
error, POST once to the fallback address; any other failure of the primary,
and any failure of the fallback, is caught by the outer handler which prints a
warning.  Nothing escapes the block. -/
def logViolationRemote (primary fallback : NetResult) : RemoteDelivery :=
  match primary with
  | .ok => { attempts := [primaryUrl], outcome := .delivered }
  | .connError =>
    match fallback with
    | .ok => { attempts := [primaryUrl, fallbackUrl], outcome := .delivered }
    | _ => { attempts := [primaryUrl, fallbackUrl], outcome := .warnedDropped }
  | .otherError => { attempts := [primaryUrl], outcome := .warnedDropped }

/-!  Derived notions used to state and prove the claims. -/

/-- The (zone id, entity id) pairs of a violation list. -/
def vpairs (vs : List Violation) : List (String × String) :=
  vs.map (fun v => (v.radar_id, v.vehicle_id))

/-- Pure classification underlying `check_vehicle`: the call emits a violation
iff the vehicle is not suppressed, its position resolves and is in the zone,
and its speed resolves and strictly exceeds the limit. -/
def violates (traci : Traci) (r : SpeedRadar) (vid : String) (current_step : ℤ) : Bool :=
  !(isSuppressed r vid current_step) &&
  (match traci.getPosition vid with
   | none => false
   | some pos =>
     r.is_in_detection_zone pos.1 pos.2 &&
     (match traci.getSpeed vid with
      | none => false
      | some sp => decide (r.speed_limit < sp)))

/-- Two radar states that agree on every field that influences the behaviour
of `check_vehicle` except the cooldown table. -/
def sameConfig (r r' : SpeedRadar) : Prop :=
  r'.id = r.id ∧ r'.x = r.x ∧ r'.y = r.y ∧ r'.speed_limit = r.speed_limit ∧
  r'.detection_radius = r.detection_radius ∧
  r'.bbox_min_x = r.bbox_min_x ∧ r'.bbox_max_x = r.bbox_max_x ∧
  r'.bbox_min_y = r.bbox_min_y ∧ r'.bbox_max_y = r.bbox_max_y ∧
  r'.cooldown_steps = r.cooldown_steps ∧ r'.nearby_edges = r.nearby_edges

/-- `RadarManager.check_all_vehicles` on the edge-based method (speedRadar.py
lines 318-328): the edge-based handler (which ends with its own periodic
sweep, lines 345-348) followed by the dispatcher's periodic sweep (lines
325-328). -/
def check_all_vehicles_edge (vehicles : List Vehicle) (radars : List SpeedRadar)
    (current_step : ℤ) : List SpeedRadar × List Violation :=
  let tick := edgeBasedTick vehicles radars current_step
  (sweepIfDue tick.1 current_step, tick.2)

/-- A configuration outcome the spec calls startup-fatal: the file is missing,
is not valid JSON, or is valid JSON but malformed at the schema level (not an
iterable of objects, or some record lacking a required key). -/
def badConfig (cfg : ConfigResult) : Prop :=
  match cfg with
  | .missing => True
  | .badJson => True
  | .notIterable => True
  | .parsed items => ∃ item ∈ items, itemOk item = false

/-- A valid-JSON record that lacks the required id key (schema-malformed). -/
def recBad : RadarRecord :=
  { id := none, x := some 0, y := some 0, speed_limit := some 1,
    detection_radius := none, description := none }

/-!  Concrete fixtures used by witnesses and counterexamples. -/

/-- A radar at the origin with speed limit 1 and detection radius 80. -/
def radarA : SpeedRadar := SpeedRadar.init "z1" 0 0 1 80 "" none

/-- A telemetry stub: every vehicle is at the origin with speed 5. -/
def traciA : Traci where
  getPosition := fun _ => some (0, 0)
  getSpeed := fun _ => some 5
  getPlate := fun vid => vid

/-- A telemetry stub where every lookup fails (vehicle left the simulation). -/
def traciNone : Traci where
  getPosition := fun _ => none
  getSpeed := fun _ => none
  getPlate := fun vid => vid

/-- `radarA` with a violation already recorded for vehicle v1 at tick 0. -/
def radarB : SpeedRadar := { radarA with violation_cooldowns := [("v1", 0)] }

/-- A straight edge whose lane-shape points lie at (-10, 0) and (10, 0), both
outside a radius-2 zone at the origin, although the lane passes through it. -/
def edgeC : Edge := { eid := "e1", lanes := [{ shape := [(-10, 0), (10, 0)] }] }

/-- A vehicle on that edge, inside the zone, at speed 5. -/
def vehC : Vehicle := { vid := "v1", plate := "", edge := "e1", pos := (0, 0), speed := 5 }

/-- The radius-2, limit-1 zone at the origin. -/
def radarCinit : SpeedRadar := SpeedRadar.init "z1" 0 0 1 2 "" none

/-- The zone after edge resolution against the topology [edgeC]. -/
def radarC : SpeedRadar := find_nearby_edges [edgeC] radarCinit

/-- An edge with a lane-shape point at the origin, inside the zone. -/
def edgeD : Edge := { eid := "e1", lanes := [{ shape := [(0, 0)] }] }

/-- The zone after edge resolution against the topology [edgeD]. -/
def radarD : SpeedRadar := find_nearby_edges [edgeD] radarCinit

theorem sameConfig_refl (r : SpeedRadar) : sameConfig r r := by
  simp [sameConfig]

theorem sameConfig_trans {r1 r2 r3 : SpeedRadar} (h12 : sameConfig r1 r2)
    (h23 : sameConfig r2 r3) : sameConfig r1 r3 := by
  obtain ⟨a, b, c, d, e, f, g, h, i, j, k⟩ := h12
  obtain ⟨a2, b2, c2, d2, e2, f2, g2, h2, i2, j2, k2⟩ := h23
  exact ⟨a2.trans a, b2.trans b, c2.trans c, d2.trans d, e2.trans e, f2.trans f,
    g2.trans g, h2.trans h, i2.trans i, j2.trans j, k2.trans k⟩

/-- Lookup at a key distinct from a removed key is unchanged. -/
theorem dictGet_dictRemove_ne (t : List (String × ℤ)) (k k2 : String) (h : k2 ≠ k) :
    dictGet (dictRemove t k) k2 = dictGet t k2 := by
  induction t with
  | nil => rfl
  | cons p t ih =>
    by_cases hp : p.1 = k
    · have hne : ¬ k2 = p.1 := fun hk => h (hk.trans hp)
      simp [dictGet, dictRemove, hp, hne, ih, h]
    · by_cases hk2 : k2 = p.1
      · simp [dictGet, dictRemove, hp, hk2]
      · simp [dictGet, dictRemove, hp, hk2, ih]

/-- Dict assignment: lookup at the written key yields the new value, lookup at
any other key is unchanged. -/
theorem dictGet_dictSet (t : List (String × ℤ)) (k : String) (v : ℤ) (k2 : String) :
    dictGet (dictSet t k v) k2 = if k2 = k then some v else dictGet t k2 := by
  unfold dictSet
  by_cases h : k2 = k
  · simp [dictGet, h]
  · simp [dictGet, h, dictGet_dictRemove_ne t k k2 h]

@[simp]
theorem isSuppressed_incChecks (r : SpeedRadar) (vid : String) (step : ℤ) :
    isSuppressed (incChecks r) vid step = isSuppressed r vid step := rfl

@[simp]
theorem is_in_detection_zone_incChecks (r : SpeedRadar) (px py : ℚ) :
    (incChecks r).is_in_detection_zone px py = r.is_in_detection_zone px py := rfl

@[simp]
theorem incChecks_speed_limit (r : SpeedRadar) :
    (incChecks r).speed_limit = r.speed_limit := rfl

@[simp]
theorem incChecks_violation_cooldowns (r : SpeedRadar) :
    (incChecks r).violation_cooldowns = r.violation_cooldowns := rfl

@[simp]
theorem incChecks_total_violations (r : SpeedRadar) :
    (incChecks r).total_violations = r.total_violations := rfl

@[simp]
theorem incChecks_total_checks (r : SpeedRadar) :
    (incChecks r).total_checks = r.total_checks + 1 := rfl

@[simp]
theorem incChecks_id (r : SpeedRadar) : (incChecks r).id = r.id := rfl

@[simp]
theorem mkViolation_incChecks (r : SpeedRadar) (vid plate : String) (step : ℤ)
    (pos : ℚ × ℚ) (sp : ℚ) :
    mkViolation (incChecks r) vid plate step pos sp = mkViolation r vid plate step pos sp := rfl

@[simp]
theorem recordViolationState_incChecks (r : SpeedRadar) (vid : String) (step : ℤ) :
    recordViolationState (incChecks r) vid step =
      incChecks (recordViolationState r vid step) := rfl

/-- Restatement of `check_vehicle` with the unchanged fields of the
intermediate state `r1 = incChecks r` read off `r` itself. -/
theorem check_vehicle_eq (traci : Traci) (r : SpeedRadar) (vid : String) (step : ℤ) :
    check_vehicle traci r vid step =
      if isSuppressed r vid step then (incChecks r, none)
      else
        match traci.getPosition vid with
        | none => (incChecks r, none)
        | some pos =>
          if r.is_in_detection_zone pos.1 pos.2 then
            match traci.getSpeed vid with
            | none => (incChecks r, none)
            | some sp =>
              if r.speed_limit < sp then
                (recordViolationState (incChecks r) vid step,
                 some (mkViolation (incChecks r) vid (traci.getPlate vid) step pos sp))
              else (incChecks r, none)
          else (incChecks r, none) := rfl

/-- The emitted pair of a single check: present iff `violates`, and equal to
(radar id, vehicle id). -/
theorem check_vehicle_vpairs (traci : Traci) (r : SpeedRadar) (vid : String) (step : ℤ) :
    vpairs (check_vehicle traci r vid step).2.toList =
      if violates traci r vid step then [(r.id, vid)] else [] := by
  rw [check_vehicle_eq]
  unfold violates
  cases hs : isSuppressed r vid step with
  | true => simp [vpairs]
  | false =>
    cases hp : traci.getPosition vid with
    | none => simp [vpairs]
    | some pos =>
      cases hz : r.is_in_detection_zone pos.1 pos.2 with
      | false => simp [vpairs, hz]
      | true =>
        cases hv : traci.getSpeed vid with
        | none => simp [vpairs, hz]
        | some sp =>
          by_cases hlim : r.speed_limit < sp
          · simp [vpairs, hz, hlim, mkViolation]
          · simp [vpairs, hz, hlim]

/-- A single check never changes the configuration fields of the radar. -/
theorem check_vehicle_sameConfig (traci : Traci) (r : SpeedRadar) (vid : String) (step : ℤ) :
    sameConfig r (check_vehicle traci r vid step).1 := by
  rw [check_vehicle_eq]
  cases hs : isSuppressed r vid step with
  | true => simp [sameConfig, incChecks]
  | false =>
    cases hp : traci.getPosition vid with
    | none => simp [sameConfig, incChecks]
    | some pos =>
      cases hz : r.is_in_detection_zone pos.1 pos.2 with
      | false => simp [sameConfig, incChecks, hz]
      | true =>
        cases hv : traci.getSpeed vid with
        | none => simp [sameConfig, incChecks, hz]
        | some sp =>
          by_cases hlim : r.speed_limit < sp
          · simp [sameConfig, incChecks, recordViolationState, hz, hlim]
          · simp [sameConfig, incChecks, hz, hlim]

/-- A single check of `vid` leaves the cooldown entry of every other vehicle
unchanged. -/
theorem check_vehicle_dictGet_ne (traci : Traci) (r : SpeedRadar) (vid : String)
    (step : ℤ) (w : String) (hw : w ≠ vid) :
    dictGet (check_vehicle traci r vid step).1.violation_cooldowns w =
      dictGet r.violation_cooldowns w := by
  rw [check_vehicle_eq]
  cases hs : isSuppressed r vid step with
  | true => simp [incChecks]
  | false =>
    cases hp : traci.getPosition vid with
    | none => simp [incChecks]
    | some pos =>
      cases hz : r.is_in_detection_zone pos.1 pos.2 with
      | false => simp [incChecks, hz]
      | true =>
        cases hv : traci.getSpeed vid with
        | none => simp [incChecks, hz]
        | some sp =>
          by_cases hlim : r.speed_limit < sp
          · simp [incChecks, recordViolationState, hz, hlim, dictGet_dictSet, hw]
          · simp [incChecks, hz, hlim]

/-- The zone test only reads the configuration fields. -/
theorem is_in_detection_zone_congr {r r' : SpeedRadar} (h : sameConfig r r')
    (px py : ℚ) : r'.is_in_detection_zone px py = r.is_in_detection_zone px py := by
  obtain ⟨_, hx, hy, _, hrad, h1, h2, h3, h4, _, _⟩ := h
  unfold SpeedRadar.is_in_detection_zone
  rw [hx, hy, hrad, h1, h2, h3, h4]

/-- `violates` only depends on the configuration fields and the cooldown entry
of the checked vehicle. -/
theorem violates_congr {r r' : SpeedRadar} (traci : Traci) (vid : String) (step : ℤ)
    (h : sameConfig r r')
    (hcd : dictGet r'.violation_cooldowns vid = dictGet r.violation_cooldowns vid) :
    violates traci r' vid step = violates traci r vid step := by
  obtain ⟨hid, hx, hy, hlim, hrad, h1, h2, h3, h4, hcool, hedges⟩ := h
  unfold violates isSuppressed SpeedRadar.is_in_detection_zone
  simp only [hcd, hcool, hlim, hx, hy, hrad, h1, h2, h3, h4]

/-- Checking a vehicle from a state with a bumped check counter: same
violation, same state up to one more counted check. -/
theorem check_vehicle_incChecks (traci : Traci) (r : SpeedRadar) (vid : String)
    (step : ℤ) :
    check_vehicle traci (incChecks r) vid step =
      (incChecks (check_vehicle traci r vid step).1,
       (check_vehicle traci r vid step).2) := by
  rw [check_vehicle_eq, check_vehicle_eq]
  simp only [isSuppressed_incChecks, is_in_detection_zone_incChecks, incChecks_speed_limit,
    mkViolation_incChecks, recordViolationState_incChecks]
  cases hs : isSuppressed r vid step with
  | true => rfl
  | false =>
    cases hp : traci.getPosition vid with
    | none => rfl
    | some pos =>
      cases hz : r.is_in_detection_zone pos.1 pos.2 with
      | false => simp [hz]
      | true =>
        cases hv : traci.getSpeed vid with
        | none => simp [hz]
        | some sp =>
          by_cases hlim : r.speed_limit < sp
          · simp [hz, hlim]
          · simp [hz, hlim]

theorem vpairs_append (a b : List Violation) : vpairs (a ++ b) = vpairs a ++ vpairs b :=
  List.map_append _ a b

/-- After a radar's candidate loop the configuration is unchanged and so is
the cooldown entry of every vehicle not in the candidate list. -/
theorem checkRadarVehicles_fst (traci : Traci) (step : ℤ) :
    ∀ (vids : List String) (r : SpeedRadar),
      sameConfig r (checkRadarVehicles traci r vids step).1 ∧
      ∀ w, w ∉ vids →
        dictGet (checkRadarVehicles traci r vids step).1.violation_cooldowns w =
          dictGet r.violation_cooldowns w := by
  intro vids
  induction vids with
  | nil => exact fun r => ⟨sameConfig_refl r, fun w _ => rfl⟩
  | cons vid rest ih =>
    intro r
    simp only [checkRadarVehicles]
    refine ⟨sameConfig_trans (check_vehicle_sameConfig traci r vid step) (ih _).1, ?_⟩
    intro w hw
    have hw1 : w ≠ vid := fun h => hw (h ▸ List.mem_cons_self vid rest)
    have hw2 : w ∉ rest := fun h => hw (List.mem_cons_of_mem vid h)
    rw [(ih _).2 w hw2, check_vehicle_dictGet_ne traci r vid step w hw1]

/-- The pairs emitted by one radar's candidate loop: exactly the candidates
that `violates` classifies as violating, against the radar's starting state,
each tagged with the radar id. -/
theorem checkRadarVehicles_vpairs (traci : Traci) (step : ℤ) :
    ∀ (vids : List String) (r : SpeedRadar), vids.Nodup →
      vpairs (checkRadarVehicles traci r vids step).2 =
        (vids.filter (fun vid => violates traci r vid step)).map (fun vid => (r.id, vid)) := by
  intro vids
  induction vids with
  | nil => intro r _; rfl
  | cons vid rest ih =>
    intro r hnd
    obtain ⟨hvid, hnd2⟩ := List.nodup_cons.mp hnd
    simp only [checkRadarVehicles]
    rw [vpairs_append, check_vehicle_vpairs, ih _ hnd2]
    have hcfg := check_vehicle_sameConfig traci r vid step
    have hfil :
        rest.filter (fun w => violates traci (check_vehicle traci r vid step).1 w step) =
          rest.filter (fun w => violates traci r w step) := by
      apply List.filter_congr
      intro w hw
      exact violates_congr traci w step hcfg
        (check_vehicle_dictGet_ne traci r vid step w (fun h => hvid (h ▸ hw)))
    rw [hfil, hcfg.1]
    by_cases hv : violates traci r vid step
    · simp [hv, List.filter_cons]
    · simp [hv, List.filter_cons]

/-- Full-scan inner loop: the emitted pairs are the radars for which the
vehicle violates, each tagged with its radar id. -/
theorem checkVehicleAllRadars_vpairs (traci : Traci) (vid : String) (step : ℤ) :
    ∀ (radars : List SpeedRadar),
      vpairs (checkVehicleAllRadars traci radars vid step).2 =
        (radars.filter (fun r => violates traci r vid step)).map (fun r => (r.id, vid)) := by
  intro radars
  induction radars with
  | nil => rfl
  | cons r rs ih =>
    simp only [checkVehicleAllRadars]
    rw [vpairs_append, check_vehicle_vpairs, ih]
    by_cases hv : violates traci r vid step
    · simp [hv, List.filter_cons]
    · simp [hv, List.filter_cons]

/-- Full-scan inner loop: every radar keeps its configuration and the cooldown
entries of all other vehicles. -/
theorem checkVehicleAllRadars_fst (traci : Traci) (vid : String) (step : ℤ) :
    ∀ (radars : List SpeedRadar),
      List.Forall₂
        (fun r r2 => sameConfig r r2 ∧
          ∀ w, w ≠ vid →
            dictGet r2.violation_cooldowns w = dictGet r.violation_cooldowns w)
        radars (checkVehicleAllRadars traci radars vid step).1 := by
  intro radars
  induction radars with
  | nil => exact List.Forall₂.nil
  | cons r rs ih =>
    simp only [checkVehicleAllRadars]
    exact List.Forall₂.cons
      ⟨check_vehicle_sameConfig traci r vid step,
       fun w hw => check_vehicle_dictGet_ne traci r vid step w hw⟩ ih

/-- Radar lists related by "same behaviour on every remaining vehicle" yield
the same existence of violation pairs over those vehicles. -/
theorem exists_pair_congr (traci : Traci) (step : ℤ) (vid : String)
    (rest : List String) (hvid : vid ∉ rest) (p : String × String) :
    ∀ {rs rs2 : List SpeedRadar},
      List.Forall₂
        (fun r r2 => sameConfig r r2 ∧
          ∀ w, w ≠ vid →
            dictGet r2.violation_cooldowns w = dictGet r.violation_cooldowns w)
        rs rs2 →
      ((∃ r2 ∈ rs2, ∃ w ∈ rest, violates traci r2 w step = true ∧ p = (r2.id, w)) ↔
       (∃ r ∈ rs, ∃ w ∈ rest, violates traci r w step = true ∧ p = (r.id, w))) := by
  intro rs rs2 hf
  induction hf with
  | nil => simp
  | cons hrel _ ih =>
    obtain ⟨hcfg, hcd⟩ := hrel
    simp only [List.mem_cons, exists_eq_or_imp]
    refine or_congr ?_ ih
    refine exists_congr fun w => ?_
    refine and_congr_right fun hw => ?_
    rw [violates_congr traci w step hcfg (hcd w (ne_of_mem_of_not_mem hw hvid)), hcfg.1]

/-- Full scan: a pair is emitted iff some starting-state radar classifies some
listed vehicle as violating. -/
theorem fullScanCore_mem (traci : Traci) (step : ℤ) :
    ∀ (vids : List String) (radars : List SpeedRadar), vids.Nodup →
      ∀ p, p ∈ vpairs (fullScanCore traci radars vids step).2 ↔
        ∃ r ∈ radars, ∃ vid ∈ vids, violates traci r vid step = true ∧ p = (r.id, vid) := by
  intro vids
  induction vids with
  | nil =>
    intro radars _ p
    simp [fullScanCore, vpairs]
  | cons vid rest ih =>
    intro radars hnd p
    obtain ⟨hvid, hnd2⟩ := List.nodup_cons.mp hnd
    simp only [fullScanCore]
    rw [vpairs_append, List.mem_append, checkVehicleAllRadars_vpairs,
      ih _ hnd2 p,
      exists_pair_congr traci step vid rest hvid p (checkVehicleAllRadars_fst traci vid step radars)]
    simp only [List.mem_map, List.mem_filter, List.mem_cons]
    constructor
    · rintro (⟨r, ⟨hr, hv⟩, hp⟩ | ⟨r, hr, w, hw, hv, hp⟩)
      · exact ⟨r, hr, vid, Or.inl rfl, hv, hp.symm⟩
      · exact ⟨r, hr, w, Or.inr hw, hv, hp⟩
    · rintro ⟨r, hr, w, hw | hw, hv, hp⟩
      · exact Or.inl ⟨r, ⟨hr, hw ▸ hv⟩, (hw ▸ hp).symm⟩
      · exact Or.inr ⟨r, hr, w, hw, hv, hp⟩

/-- With distinct vehicle ids, the snapshot resolves a listed vehicle's id to
that vehicle. -/
theorem find?_vid (vehicles : List Vehicle)
    (hnd : (vehicles.map Vehicle.vid).Nodup) (v : Vehicle) (hv : v ∈ vehicles) :
    vehicles.find? (fun u => u.vid == v.vid) = some v := by
  induction vehicles with
  | nil => cases hv
  | cons u rest ih =>
    rw [List.map_cons, List.nodup_cons] at hnd
    rcases List.mem_cons.mp hv with hv | hv
    · subst hv
      simp [List.find?]
    · have hne : ¬(u.vid == v.vid) = true := by
        simp only [beq_iff_eq]
        intro h
        exact hnd.1 (h ▸ List.mem_map_of_mem Vehicle.vid hv)
      rw [List.find?]
      simp only [hne, if_neg]
      exact ih hnd.2 hv

theorem snapTraci_getPosition (vehicles : List Vehicle)
    (hnd : (vehicles.map Vehicle.vid).Nodup) (v : Vehicle) (hv : v ∈ vehicles) :
    (snapTraci vehicles).getPosition v.vid = some v.pos := by
  simp [snapTraci, find?_vid vehicles hnd v hv]

theorem snapTraci_getSpeed (vehicles : List Vehicle)
    (hnd : (vehicles.map Vehicle.vid).Nodup) (v : Vehicle) (hv : v ∈ vehicles) :
    (snapTraci vehicles).getSpeed v.vid = some v.speed := by
  simp [snapTraci, find?_vid vehicles hnd v hv]

/-- Over a snapshot with distinct ids, `violates` for a listed vehicle reduces
to the three pure tests on that vehicle's data. -/
theorem violates_snap (vehicles : List Vehicle)
    (hnd : (vehicles.map Vehicle.vid).Nodup) (r : SpeedRadar) (step : ℤ)
    (v : Vehicle) (hv : v ∈ vehicles) :
    violates (snapTraci vehicles) r v.vid step =
      (!(isSuppressed r v.vid step) &&
        (r.is_in_detection_zone v.pos.1 v.pos.2 && decide (r.speed_limit < v.speed))) := by
  unfold violates
  rw [snapTraci_getPosition vehicles hnd v hv, snapTraci_getSpeed vehicles hnd v hv]

/-- Edge-based scan: a pair is emitted iff some radar classifies as violating
some vehicle that lies on one of its nearby edges. -/
theorem edgeBasedCore_mem (vehicles : List Vehicle) (step : ℤ)
    (hnd : (vehicles.map Vehicle.vid).Nodup) :
    ∀ (radars : List SpeedRadar) (p : String × String),
      p ∈ vpairs (edgeBasedCore vehicles radars step).2 ↔
        ∃ r ∈ radars, ∃ v ∈ vehicles, v.edge ∈ r.nearby_edges ∧
          violates (snapTraci vehicles) r v.vid step = true ∧ p = (r.id, v.vid) := by
  intro radars
  induction radars with
  | nil => intro p; simp [edgeBasedCore, vpairs]
  | cons r rs ih =>
    intro p
    simp only [edgeBasedCore]
    have hndc : ((get_nearby_vehicles vehicles r).map (fun v => v.vid)).Nodup := by
      have hsub : List.Sublist ((get_nearby_vehicles vehicles r).map (fun v => v.vid))
          (vehicles.map Vehicle.vid) :=
        List.Sublist.map _ (List.filter_sublist vehicles)
      exact hnd.sublist hsub
    rw [vpairs_append, List.mem_append,
      checkRadarVehicles_vpairs (snapTraci vehicles) step _ r hndc, ih p]
    simp only [List.mem_map, List.mem_filter, List.mem_cons, get_nearby_vehicles]
    constructor
    · rintro (⟨vid, ⟨hvid, hv⟩, hp⟩ | ⟨r2, hr2, v, hv2, he, hv3, hp⟩)
      · obtain ⟨v, hvmem, rfl⟩ := hvid
        obtain ⟨hvveh, hedge⟩ := hvmem
        exact ⟨r, Or.inl rfl, v, hvveh, by simpa using hedge, hv, hp.symm⟩
      · exact ⟨r2, Or.inr hr2, v, hv2, he, hv3, hp⟩
    · rintro ⟨r2, hr2 | hr2, v, hvveh, hedge, hv, hp⟩
      · subst hr2
        refine Or.inl ⟨v.vid, ⟨⟨v, ⟨hvveh, by simpa using hedge⟩, rfl⟩, hv⟩, hp.symm⟩
      · exact Or.inr ⟨r2, hr2, v, hvveh, hedge, hv, hp⟩


/-- C5: For every cooldown table state and tick t, the sweep operation removes
exactly those entries e with t - e >= window and leaves every entry e with
t - e < window unchanged (both its presence and its recorded tick). -/
theorem cleanup_removes_exactly_expired (r : SpeedRadar) (t : ℤ) (e : String × ℤ) :
    e ∈ (cleanup_old_cooldowns r t).violation_cooldowns ↔
      e ∈ r.violation_cooldowns ∧ t - e.2 < r.cooldown_steps := by
  simp [cleanup_old_cooldowns, List.mem_filter, not_le]

theorem cleanup_old_cooldowns_idem (r : SpeedRadar) (t : ℤ) :
    cleanup_old_cooldowns (cleanup_old_cooldowns r t) t = cleanup_old_cooldowns r t := by
  unfold cleanup_old_cooldowns
  simp [List.filter_filter]

/-- C10: The cooldown sweep is idempotent at a fixed tick: sweeping twice
yields the same table as sweeping once, so the engine's double invocation of
the sweep on edge-based ticks with t mod 500 = 0 (once inside the edge-based
handler, once in the dispatching method) leaves the same cooldown state as a
single sweep. -/
theorem cleanup_idempotent (t : ℤ) :
    (∀ r : SpeedRadar,
      cleanup_old_cooldowns (cleanup_old_cooldowns r t) t = cleanup_old_cooldowns r t) ∧
    (∀ radars : List SpeedRadar, sweepIfDue (sweepIfDue radars t) t = sweepIfDue radars t) ∧
    (∀ (vehicles : List Vehicle) (radars : List SpeedRadar),
      (check_all_vehicles_edge vehicles radars t).1 =
        sweepIfDue (edgeBasedCore vehicles radars t).1 t) := by
  have hsweep : ∀ radars : List SpeedRadar,
      sweepIfDue (sweepIfDue radars t) t = sweepIfDue radars t := by
    intro radars
    unfold sweepIfDue
    by_cases h : (t % 500 == 0) = true
    · simp only [h, if_pos, List.map_map]
      apply List.map_congr_left
      intro r _
      exact cleanup_old_cooldowns_idem r t
    · simp [h]
  refine ⟨fun r => cleanup_old_cooldowns_idem r t, hsweep, ?_⟩
  intro vehicles radars
  unfold check_all_vehicles_edge edgeBasedTick
  exact hsweep _

/-- C8: Remote delivery of an emitted violation always attempts the primary
address first; on a connection failure of the primary it retries exactly once
against the fallback address; if both fail it ends in a logged warning and the
delivery is dropped; no failure mode raises back into the detection path. -/
theorem remote_delivery_contract (primary fallback : NetResult) :
    (logViolationRemote primary fallback).attempts.head? = some primaryUrl ∧
    (primary = NetResult.connError →
      (logViolationRemote primary fallback).attempts = [primaryUrl, fallbackUrl]) ∧
    (primary ≠ NetResult.connError →
      (logViolationRemote primary fallback).attempts = [primaryUrl]) ∧
    (primary = NetResult.connError → fallback ≠ NetResult.ok →
      (logViolationRemote primary fallback).outcome = DeliveryOutcome.warnedDropped) ∧
    (primary = NetResult.connError → fallback = NetResult.ok →
      (logViolationRemote primary fallback).outcome = DeliveryOutcome.delivered) ∧
    (logViolationRemote primary fallback).outcome ≠ DeliveryOutcome.raised := by
  cases primary <;> cases fallback <;> simp [logViolationRemote]

theorem remote_delivery_contract_witness :
    (logViolationRemote NetResult.connError NetResult.otherError).attempts =
      [primaryUrl, fallbackUrl] ∧
    (logViolationRemote NetResult.connError NetResult.otherError).outcome =
      DeliveryOutcome.warnedDropped ∧
    (logViolationRemote NetResult.connError NetResult.otherError).outcome ≠
      DeliveryOutcome.raised :=
  ⟨(remote_delivery_contract NetResult.connError NetResult.otherError).2.1 rfl,
   (remote_delivery_contract NetResult.connError NetResult.otherError).2.2.2.1 rfl
     (by decide),
   (remote_delivery_contract NetResult.connError NetResult.otherError).2.2.2.2.2⟩

/-- `buildRadar` fails exactly on items failing the schema test. -/
theorem buildRadar_eq_none_iff (sim : Option String) (item : ConfigItem) :
    buildRadar sim item = none ↔ itemOk item = false := by
  cases item with
  | nonRecord => simp [buildRadar, itemOk]
  | record rec =>
    cases hid : rec.id <;> cases hx : rec.x <;> cases hy : rec.y <;>
      cases hlim : rec.speed_limit <;>
      simp [buildRadar, itemOk, hid, hx, hy, hlim]

/-- The record loop raises iff some item is malformed. -/
theorem buildRadars_eq_none_iff (sim : Option String) :
    ∀ items : List ConfigItem,
      buildRadars sim items = none ↔ ∃ item ∈ items, itemOk item = false := by
  intro items
  induction items with
  | nil => simp [buildRadars]
  | cons item rest ih =>
    simp only [buildRadars]
    cases hb : buildRadar sim item with
    | none =>
      simp only [true_iff]
      exact ⟨item, List.mem_cons_self item rest,
        (buildRadar_eq_none_iff sim item).mp hb⟩
    | some r =>
      have hok : ¬ itemOk item = false := fun h =>
        by simp [(buildRadar_eq_none_iff sim item).mpr h] at hb
      cases hrest : buildRadars sim rest with
      | none =>
        constructor
        · intro _
          obtain ⟨i2, hi2, hbad⟩ := ih.mp hrest
          exact ⟨i2, List.mem_cons_of_mem item hi2, hbad⟩
        · intro _
          rfl
      | some rs =>
        constructor
        · intro hcontra
          exact absurd hcontra (by simp)
        · rintro ⟨i2, hi2, hbad⟩
          rcases List.mem_cons.mp hi2 with rfl | hi2
          · exact absurd hbad hok
          · have h2 := ih.mpr ⟨i2, hi2, hbad⟩
            simp [hrest] at h2

/-- C7 counterexample: with the configuration file missing (a startup-fatal
condition per the claim), the startup script still enters the simulation loop,
with zero radars loaded. -/
theorem startup_fatal_counterexample :
    badConfig ConfigResult.missing ∧
    simulationStartup (some "sim") ConfigResult.missing =
      StartupOutcome.entersLoop [] false :=
  ⟨trivial, rfl⟩

/-- C7 amended: startup fatality depends on the kind of configuration failure.
A missing file or invalid JSON is caught inside `load_radars`, which returns
`False` with zero radars; the caller ignores the flag, so the process proceeds
into the simulation loop with zero zones (not fatal).  A configuration that
parses as JSON but is schema-malformed — a non-iterable top level, a non-object
item, or a record missing a required key — raises an uncaught
`TypeError`/`KeyError` out of `load_radars`, which terminates the process at
the module-level call before the loop (fatal, via a traceback rather than a
descriptive error). -/
theorem startup_config_contract (sim : Option String) (cfg : ConfigResult)
    (h : badConfig cfg) :
    ((cfg = ConfigResult.missing ∨ cfg = ConfigResult.badJson) →
      load_radars sim cfg = LoadOutcome.returned [] false ∧
      simulationStartup sim cfg = StartupOutcome.entersLoop [] false) ∧
    (cfg = ConfigResult.notIterable →
      load_radars sim cfg = LoadOutcome.raised ∧
      simulationStartup sim cfg = StartupOutcome.terminated) ∧
    (∀ items, cfg = ConfigResult.parsed items →
      load_radars sim cfg = LoadOutcome.raised ∧
      simulationStartup sim cfg = StartupOutcome.terminated) := by
  refine ⟨?_, ?_, ?_⟩
  · rintro (rfl | rfl) <;> exact ⟨rfl, rfl⟩
  · rintro rfl
    exact ⟨rfl, rfl⟩
  · rintro items rfl
    have hnone : buildRadars sim items = none :=
      (buildRadars_eq_none_iff sim items).mpr h
    have hload : load_radars sim (ConfigResult.parsed items) = LoadOutcome.raised := by
      simp [load_radars, hnone]
    refine ⟨hload, ?_⟩
    simp [simulationStartup, hload]

theorem startup_config_contract_witness :
    badConfig ConfigResult.missing ∧
    badConfig (ConfigResult.parsed [ConfigItem.record recBad]) ∧
    simulationStartup none ConfigResult.missing =
      StartupOutcome.entersLoop [] false ∧
    simulationStartup none (ConfigResult.parsed [ConfigItem.record recBad]) =
      StartupOutcome.terminated := by
  have hbad : badConfig (ConfigResult.parsed [ConfigItem.record recBad]) :=
    ⟨ConfigItem.record recBad, List.mem_singleton.mpr rfl, rfl⟩
  refine ⟨trivial, hbad, ?_, ?_⟩
  · exact ((startup_config_contract none ConfigResult.missing trivial).1
      (Or.inl rfl)).2
  · exact ((startup_config_contract none
      (ConfigResult.parsed [ConfigItem.record recBad]) hbad).2.2
      [ConfigItem.record recBad] rfl).2

/-- C6: For a zone constructed with center (x, y) and positive radius, the
in-zone test holds iff the Euclidean distance to the center is at most the
radius (stated via squared distances, equivalent for a nonnegative radius):
the center-plus-minus-radius bounding box never rejects a point of the
detection circle, so box AND circle coincides with the circle test alone. -/
theorem inZone_iff_circle (radar_id : String) (x y limit radius : ℚ)
    (desc : String) (sim : Option String) (px py : ℚ) (hr : 0 < radius) :
    (SpeedRadar.init radar_id x y limit radius desc sim).is_in_detection_zone px py = true ↔
      (px - x) ^ 2 + (py - y) ^ 2 ≤ radius ^ 2 := by
  unfold SpeedRadar.init SpeedRadar.is_in_detection_zone
  simp only
  constructor
  · intro h
    by_cases hbox : x - radius ≤ px ∧ px ≤ x + radius ∧ y - radius ≤ py ∧ py ≤ y + radius
    · rw [if_pos hbox] at h
      exact of_decide_eq_true h
    · rw [if_neg hbox] at h
      exact absurd h (by simp)
  · intro h
    have h1 : x - radius ≤ px := by nlinarith [sq_nonneg (py - y), sq_nonneg (px - x + radius)]
    have h2 : px ≤ x + radius := by nlinarith [sq_nonneg (py - y), sq_nonneg (px - x - radius)]
    have h3 : y - radius ≤ py := by nlinarith [sq_nonneg (px - x), sq_nonneg (py - y + radius)]
    have h4 : py ≤ y + radius := by nlinarith [sq_nonneg (px - x), sq_nonneg (py - y - radius)]
    rw [if_pos ⟨h1, h2, h3, h4⟩]
    exact decide_eq_true h

theorem inZone_iff_circle_witness :
    (0 : ℚ) < 5 ∧
    ((SpeedRadar.init "z" 0 0 1 5 "" none).is_in_detection_zone 3 4 = true ↔
      ((3 : ℚ) - 0) ^ 2 + ((4 : ℚ) - 0) ^ 2 ≤ (5 : ℚ) ^ 2) :=
  ⟨by norm_num, inZone_iff_circle "z" 0 0 1 5 "" none 3 4 (by norm_num)⟩

/-- C1: Every `check_vehicle` call increments the total-checks counter; a
suppressed vehicle yields none with no other state change; a vehicle outside
the detection zone yields none; a vehicle at or under the speed limit yields
none; otherwise the violation tick is recorded in the cooldown table, the
violation counter is incremented, and the returned event carries an overspeed
(stored in km/h) equal to (speed - speed_limit) * 3.6 with observed speed
strictly above the limit. -/
theorem check_vehicle_contract (traci : Traci) (r : SpeedRadar) (vid : String)
    (step : ℤ) (pos : ℚ × ℚ) (sp : ℚ)
    (hpos : traci.getPosition vid = some pos) (hsp : traci.getSpeed vid = some sp) :
    ((check_vehicle traci r vid step).1.total_checks = r.total_checks + 1) ∧
    (isSuppressed r vid step = true →
      check_vehicle traci r vid step = (incChecks r, none)) ∧
    (isSuppressed r vid step = false → r.is_in_detection_zone pos.1 pos.2 = false →
      check_vehicle traci r vid step = (incChecks r, none)) ∧
    (isSuppressed r vid step = false → r.is_in_detection_zone pos.1 pos.2 = true →
      sp ≤ r.speed_limit → check_vehicle traci r vid step = (incChecks r, none)) ∧
    (isSuppressed r vid step = false → r.is_in_detection_zone pos.1 pos.2 = true →
      r.speed_limit < sp →
      dictGet (check_vehicle traci r vid step).1.violation_cooldowns vid = some step ∧
      (check_vehicle traci r vid step).1.total_violations = r.total_violations + 1 ∧
      (check_vehicle traci r vid step).2 =
        some (mkViolation r vid (traci.getPlate vid) step pos sp) ∧
      (mkViolation r vid (traci.getPlate vid) step pos sp).overspeed_kmh =
        (sp - r.speed_limit) * (18 / 5) ∧
      (mkViolation r vid (traci.getPlate vid) step pos sp).speed_limit_ms <
        (mkViolation r vid (traci.getPlate vid) step pos sp).actual_speed_ms) := by
  refine ⟨?_, ?_, ?_, ?_, ?_⟩
  · rw [check_vehicle_eq, hpos, hsp]
    cases hs : isSuppressed r vid step
    · cases hz : r.is_in_detection_zone pos.1 pos.2
      · simp [hz, incChecks]
      · by_cases hlim : r.speed_limit < sp
        · simp [hz, hlim, recordViolationState, incChecks]
        · simp [hz, hlim, incChecks]
    · simp [incChecks]
  · intro hs
    rw [check_vehicle_eq, hs]
    simp
  · intro hs hz
    rw [check_vehicle_eq, hpos, hs]
    simp [hz]
  · intro hs hz hlim
    rw [check_vehicle_eq, hpos, hs, hsp]
    simp [hz, not_lt.mpr hlim]
  · intro hs hz hlim
    have hgoal : check_vehicle traci r vid step =
        (recordViolationState (incChecks r) vid step,
         some (mkViolation r vid (traci.getPlate vid) step pos sp)) := by
      rw [check_vehicle_eq, hpos, hs, hsp]
      simp [hz, hlim]
    rw [hgoal]
    refine ⟨?_, ?_, rfl, rfl, hlim⟩
    · simp [recordViolationState, dictGet_dictSet]
    · simp [recordViolationState, incChecks]

theorem check_vehicle_contract_witness :
    traciA.getPosition "v1" = some (0, 0) ∧ traciA.getSpeed "v1" = some 5 ∧
    dictGet (check_vehicle traciA radarA "v1" 0).1.violation_cooldowns "v1" = some 0 ∧
    (check_vehicle traciA radarA "v1" 0).1.total_violations =
      radarA.total_violations + 1 ∧
    (check_vehicle traciA radarA "v1" 0).2 =
      some (mkViolation radarA "v1" (traciA.getPlate "v1") 0 (0, 0) 5) ∧
    (check_vehicle traciA radarA "v1" 0).1.total_checks = radarA.total_checks + 1 := by
  have h := check_vehicle_contract traciA radarA "v1" 0 (0, 0) 5 rfl rfl
  have hs : isSuppressed radarA "v1" 0 = false := rfl
  have hz : radarA.is_in_detection_zone ((0 : ℚ), (0 : ℚ)).1 ((0 : ℚ), (0 : ℚ)).2 = true := by
    unfold radarA SpeedRadar.init SpeedRadar.is_in_detection_zone
    norm_num
  have hlim : radarA.speed_limit < 5 := by norm_num [radarA, SpeedRadar.init]
  have h5 := h.2.2.2.2 hs hz hlim
  exact ⟨rfl, rfl, h5.1, h5.2.1, h5.2.2.1, h.1⟩

/-- C2: With a violation recorded at tick T for entity E (window W =
cooldown_steps): suppression holds iff an entry exists and t - entry < W;
every check at a tick t with T+1 <= t <= T+W-1 returns none with only the
check counter bumped; at tick T+W the entity is no longer suppressed, and a
new violation is returned if the position and speed conditions hold. -/
theorem cooldown_window_contract (traci : Traci) (r : SpeedRadar) (E : String)
    (T : ℤ) (hE : dictGet r.violation_cooldowns E = some T) :
    (∀ vid t, isSuppressed r vid t = true ↔
      ∃ e, dictGet r.violation_cooldowns vid = some e ∧ t - e < r.cooldown_steps) ∧
    (∀ t, T + 1 ≤ t → t ≤ T + r.cooldown_steps - 1 →
      check_vehicle traci r E t = (incChecks r, none)) ∧
    isSuppressed r E (T + r.cooldown_steps) = false ∧
    (∀ pos sp, traci.getPosition E = some pos → traci.getSpeed E = some sp →
      r.is_in_detection_zone pos.1 pos.2 = true → r.speed_limit < sp →
      (check_vehicle traci r E (T + r.cooldown_steps)).2 =
        some (mkViolation r E (traci.getPlate E)
          (T + r.cooldown_steps) pos sp)) := by
  have hnot : isSuppressed r E (T + r.cooldown_steps) = false := by
    unfold isSuppressed
    rw [hE]
    simp
  refine ⟨?_, ?_, hnot, ?_⟩
  · intro vid t
    unfold isSuppressed
    cases hd : dictGet r.violation_cooldowns vid with
    | none => simp
    | some e => simp [decide_eq_true_eq]
  · intro t h1 h2
    have hsup : isSuppressed r E t = true := by
      unfold isSuppressed
      rw [hE]
      exact decide_eq_true (by omega)
    rw [check_vehicle_eq, hsup]
    simp
  · intro pos sp hpos hsp hz hlim
    rw [check_vehicle_eq, hpos, hsp, hnot]
    simp [hz, hlim]

theorem cooldown_window_contract_witness :
    dictGet radarB.violation_cooldowns "v1" = some 0 ∧
    check_vehicle traciA radarB "v1" 5 = (incChecks radarB, none) ∧
    isSuppressed radarB "v1" (0 + radarB.cooldown_steps) = false ∧
    (check_vehicle traciA radarB "v1" (0 + radarB.cooldown_steps)).2 =
      some (mkViolation radarB "v1" (traciA.getPlate "v1")
        (0 + radarB.cooldown_steps) (0, 0) 5) := by
  have h := cooldown_window_contract traciA radarB "v1" 0 rfl
  have hz : radarB.is_in_detection_zone ((0 : ℚ), (0 : ℚ)).1 ((0 : ℚ), (0 : ℚ)).2 = true := by
    unfold radarB radarA SpeedRadar.init SpeedRadar.is_in_detection_zone
    norm_num
  have hlim : radarB.speed_limit < 5 := by norm_num [radarB, radarA, SpeedRadar.init]
  refine ⟨rfl, ?_, h.2.2.1, h.2.2.2 (0, 0) 5 rfl rfl hz hlim⟩
  refine h.2.1 5 (by norm_num) ?_
  show (5 : ℤ) ≤ 0 + radarB.cooldown_steps - 1
  norm_num [radarB, radarA, SpeedRadar.init]

/-- Bumping the check counter before a candidate loop does not change the
violations it produces, and shifts the final state by exactly that bump. -/
theorem checkRadarVehicles_incChecks (traci : Traci) (step : ℤ) :
    ∀ (vids : List String) (r : SpeedRadar),
      checkRadarVehicles traci (incChecks r) vids step =
        (incChecks (checkRadarVehicles traci r vids step).1,
         (checkRadarVehicles traci r vids step).2) := by
  intro vids
  induction vids with
  | nil => intro r; rfl
  | cons vid rest ih =>
    intro r
    simp only [checkRadarVehicles]
    rw [check_vehicle_incChecks, ih]

/-- C9: When telemetry resolution for an entity fails mid-check, the check
returns none without raising: cooldown table and violation counter are
unchanged, the check counter is still incremented, and processing of the
remaining entities (and of the remaining zones in the full scan) continues
exactly as it would have without the vanished entity. -/
theorem telemetry_miss_contract (traci : Traci) (r : SpeedRadar) (vid : String)
    (step : ℤ) (hpos : traci.getPosition vid = none) :
    check_vehicle traci r vid step = (incChecks r, none) ∧
    (check_vehicle traci r vid step).1.violation_cooldowns = r.violation_cooldowns ∧
    (check_vehicle traci r vid step).1.total_violations = r.total_violations ∧
    (check_vehicle traci r vid step).1.total_checks = r.total_checks + 1 ∧
    (∀ rest, (checkRadarVehicles traci r (vid :: rest) step).2 =
      (checkRadarVehicles traci r rest step).2) ∧
    (∀ radars, checkVehicleAllRadars traci radars vid step =
      (radars.map incChecks, [])) := by
  have hcv : ∀ r2 : SpeedRadar, check_vehicle traci r2 vid step = (incChecks r2, none) := by
    intro r2
    rw [check_vehicle_eq, hpos]
    cases hs : isSuppressed r2 vid step <;> simp
  refine ⟨hcv r, ?_, ?_, ?_, ?_, ?_⟩
  · rw [hcv r]; rfl
  · rw [hcv r]; rfl
  · rw [hcv r]; rfl
  · intro rest
    simp only [checkRadarVehicles]
    rw [hcv r, checkRadarVehicles_incChecks]
    simp
  · intro radars
    induction radars with
    | nil => rfl
    | cons r2 rs ih =>
      simp only [checkVehicleAllRadars]
      rw [hcv r2, ih]
      rfl

theorem telemetry_miss_contract_witness :
    traciNone.getPosition "v1" = none ∧
    check_vehicle traciNone radarA "v1" 0 = (incChecks radarA, none) ∧
    (checkRadarVehicles traciNone radarA ["v1", "v2"] 0).2 =
      (checkRadarVehicles traciNone radarA ["v2"] 0).2 ∧
    checkVehicleAllRadars traciNone [radarA, radarB] "v1" 0 =
      ([radarA, radarB].map incChecks, []) := by
  have h := telemetry_miss_contract traciNone radarA "v1" 0 rfl
  exact ⟨rfl, h.1, h.2.2.2.2.1 ["v2"], h.2.2.2.2.2 [radarA, radarB]⟩

/-- C4 counterexample: on identical telemetry (vehicle v1 at the origin at
speed 5, radar limit 1), the subscription path emits the violation but leaves
the total-checks counter untouched, while `check_vehicle` increments it: the
two resulting radar states differ, so the subscription path does not apply the
identical counter updates. -/
theorem subscription_contract_counterexample :
    (subCheckVehicle traciA radarA "v1" 5 (0, 0) 0).1.total_checks = 0 ∧
    (check_vehicle traciA radarA "v1" 0).1.total_checks = 1 ∧
    (subCheckVehicle traciA radarA "v1" 5 (0, 0) 0).1 ≠
      (check_vehicle traciA radarA "v1" 0).1 := by
  have hs : isSuppressed radarA "v1" 0 = false := rfl
  have hz : radarA.is_in_detection_zone ((0 : ℚ), (0 : ℚ)).1 ((0 : ℚ), (0 : ℚ)).2 = true := by
    unfold radarA SpeedRadar.init SpeedRadar.is_in_detection_zone
    norm_num
  have hlim : radarA.speed_limit < 5 := by norm_num [radarA, SpeedRadar.init]
  have hsub : subCheckVehicle traciA radarA "v1" 5 (0, 0) 0 =
      (recordViolationState radarA "v1" 0,
       some (mkViolation radarA "v1" (traciA.getPlate "v1") 0 (0, 0) 5)) := by
    unfold subCheckVehicle
    rw [hs]
    simp [hz, hlim]
  have hcv : check_vehicle traciA radarA "v1" 0 =
      (recordViolationState (incChecks radarA) "v1" 0,
       some (mkViolation radarA "v1" (traciA.getPlate "v1") 0 (0, 0) 5)) := by
    rw [check_vehicle_eq]
    rw [show traciA.getPosition "v1" = some (0, 0) from rfl]
    rw [show traciA.getSpeed "v1" = some 5 from rfl]
    rw [hs]
    simp [hz, hlim]
  rw [hsub, hcv]
  refine ⟨rfl, rfl, ?_⟩
  intro hcontra
  have h2 := congrArg SpeedRadar.total_checks hcontra
  simp [recordViolationState, incChecks, radarA, SpeedRadar.init] at h2

/-- C4 amended: for every candidate the subscription path applies the same
cooldown, in-zone and speed checks in the same order as `check_vehicle`, the
same cooldown-table and violation-counter updates, and emits a violation event
with identical fields; the only divergence is that it never increments the
total-checks counter, which `check_vehicle` always does. -/
theorem subscription_check_contract (traci : Traci) (r : SpeedRadar) (vid : String)
    (sp : ℚ) (pos : ℚ × ℚ) (step : ℤ)
    (hpos : traci.getPosition vid = some pos) (hsp : traci.getSpeed vid = some sp) :
    (check_vehicle traci r vid step).2 = (subCheckVehicle traci r vid sp pos step).2 ∧
    (check_vehicle traci r vid step).1 =
      incChecks (subCheckVehicle traci r vid sp pos step).1 := by
  rw [check_vehicle_eq, hpos, hsp]
  unfold subCheckVehicle
  cases hs : isSuppressed r vid step
  · cases hz : r.is_in_detection_zone pos.1 pos.2
    · simp [hz]
    · by_cases hlim : r.speed_limit < sp
      · simp [hz, hlim]
      · simp [hz, hlim]
  · simp

theorem subscription_check_contract_witness :
    traciA.getPosition "v1" = some (0, 0) ∧ traciA.getSpeed "v1" = some 5 ∧
    (check_vehicle traciA radarA "v1" 0).2 =
      (subCheckVehicle traciA radarA "v1" 5 (0, 0) 0).2 ∧
    (check_vehicle traciA radarA "v1" 0).1 =
      incChecks (subCheckVehicle traciA radarA "v1" 5 (0, 0) 0).1 := by
  have h := subscription_check_contract traciA radarA "v1" 5 (0, 0) 0 rfl rfl
  exact ⟨rfl, rfl, h.1, h.2⟩

/-- C3 amended: on an identical telemetry snapshot (distinct vehicle ids) and
identical zone set with identical cooldown state, the edge-based and full-scan
strategies produce the same set of (zone id, entity id) violation pairs,
PROVIDED every vehicle inside a zone's detection circle is located on one of
that zone's resolved nearby edges; without that proviso the edge-based
strategy can miss a violating vehicle whose edge has no lane-shape point
inside the zone. -/
theorem edge_full_scan_equiv (vehicles : List Vehicle) (radars : List SpeedRadar)
    (step : ℤ) (hnd : (vehicles.map Vehicle.vid).Nodup)
    (hcov : ∀ r ∈ radars, ∀ v ∈ vehicles,
      r.is_in_detection_zone v.pos.1 v.pos.2 = true → v.edge ∈ r.nearby_edges) :
    ∀ p, p ∈ vpairs (edgeBasedTick vehicles radars step).2 ↔
      p ∈ vpairs (fullScanTick vehicles radars step).2 := by
  intro p
  have hedge : (edgeBasedTick vehicles radars step).2 =
      (edgeBasedCore vehicles radars step).2 := rfl
  rw [hedge, edgeBasedCore_mem vehicles step hnd radars p]
  unfold fullScanTick
  rw [fullScanCore_mem (snapTraci vehicles) step (vehicles.map (fun v => v.vid))
    radars hnd p]
  constructor
  · rintro ⟨r, hr, v, hv, _, hviol, hp⟩
    exact ⟨r, hr, v.vid, List.mem_map_of_mem _ hv, hviol, hp⟩
  · rintro ⟨r, hr, vid, hvid, hviol, hp⟩
    obtain ⟨v, hv, rfl⟩ := List.mem_map.mp hvid
    have hz : r.is_in_detection_zone v.pos.1 v.pos.2 = true := by
      have h2 := hviol
      rw [violates_snap vehicles hnd r step v hv] at h2
      simp only [Bool.and_eq_true] at h2
      exact h2.2.1
    exact ⟨r, hr, v, hv, hcov r hr v hv hz, hviol, hp⟩


theorem radarC_eq :
    radarC = { radarCinit with nearby_edges := [], edges_done := true } := by
  have hno1 : radarCinit.is_in_detection_zone (-10) 0 = false := by
    unfold radarCinit SpeedRadar.init SpeedRadar.is_in_detection_zone
    norm_num
  have hno2 : radarCinit.is_in_detection_zone 10 0 = false := by
    unfold radarCinit SpeedRadar.init SpeedRadar.is_in_detection_zone
    norm_num
  unfold radarC find_nearby_edges
  rw [if_neg (by simp [radarCinit, SpeedRadar.init])]
  have hpred : (!(isInternalEdge edgeC.eid) &&
      edgeC.lanes.any (fun l =>
        l.shape.any (fun p => radarCinit.is_in_detection_zone p.1 p.2))) = false := by
    simp [edgeC, hno1, hno2]
  simp only [List.filter, hpred, List.map_nil, List.append_nil]
  simp [radarCinit, SpeedRadar.init]

theorem radarD_eq :
    radarD = { radarCinit with nearby_edges := ["e1"], edges_done := true } := by
  have hyes : radarCinit.is_in_detection_zone 0 0 = true := by
    unfold radarCinit SpeedRadar.init SpeedRadar.is_in_detection_zone
    norm_num
  unfold radarD find_nearby_edges
  rw [if_neg (by simp [radarCinit, SpeedRadar.init])]
  have hpred : (!(isInternalEdge edgeD.eid) &&
      edgeD.lanes.any (fun l =>
        l.shape.any (fun p => radarCinit.is_in_detection_zone p.1 p.2))) = true := by
    simp only [edgeD, Bool.and_eq_true, Bool.not_eq_true]
    exact ⟨by decide, by simp [hyes]⟩
  simp only [List.filter, hpred, List.map_cons, List.map_nil]
  simp [radarCinit, SpeedRadar.init, edgeD]

/-- C3 counterexample: zone z1 (radius 2, limit 1, edges resolved against a
topology whose only lane-shape points lie outside the zone) and vehicle v1 on
that edge inside the zone at speed 5, identical cooldown state (empty): full
scan emits the (z1, v1) violation pair, edge-based emits nothing, so the two
strategies disagree on this snapshot. -/
theorem strategy_equiv_counterexample :
    ("z1", "v1") ∈ vpairs (fullScanTick [vehC] [radarC] 0).2 ∧
    ("z1", "v1") ∉ vpairs (edgeBasedTick [vehC] [radarC] 0).2 := by
  have hnd : ([vehC].map Vehicle.vid).Nodup := by simp
  have hviol : violates (snapTraci [vehC]) radarC vehC.vid 0 = true := by
    rw [violates_snap [vehC] hnd radarC 0 vehC (by simp)]
    have hsup : isSuppressed radarC vehC.vid 0 = false := by
      rw [radarC_eq]
      rfl
    have hz : radarC.is_in_detection_zone vehC.pos.1 vehC.pos.2 = true := by
      rw [radarC_eq]
      unfold radarCinit SpeedRadar.init SpeedRadar.is_in_detection_zone vehC
      norm_num
    have hlim : radarC.speed_limit < vehC.speed := by
      rw [radarC_eq]
      norm_num [radarCinit, SpeedRadar.init, vehC]
    rw [hsup, hz]
    simp [hlim]
  constructor
  · unfold fullScanTick
    rw [fullScanCore_mem (snapTraci [vehC]) 0 ([vehC].map (fun v => v.vid))
      [radarC] hnd ("z1", "v1")]
    refine ⟨radarC, by simp, vehC.vid, by simp, hviol, ?_⟩
    rw [radarC_eq]
    rfl
  · have hedge : (edgeBasedTick [vehC] [radarC] 0).2 =
        (edgeBasedCore [vehC] [radarC] 0).2 := rfl
    rw [hedge, edgeBasedCore_mem [vehC] 0 hnd [radarC] ("z1", "v1")]
    rintro ⟨r, hr, v, hv, hedge2, _, _⟩
    simp only [List.mem_singleton] at hr hv
    subst hr
    subst hv
    rw [radarC_eq] at hedge2
    simp at hedge2

theorem edge_full_scan_equiv_witness :
    (("z1", "v1") ∈ vpairs (edgeBasedTick [vehC] [radarD] 0).2 ↔
      ("z1", "v1") ∈ vpairs (fullScanTick [vehC] [radarD] 0).2) := by
  refine edge_full_scan_equiv [vehC] [radarD] 0 (by simp) ?_ ("z1", "v1")
  intro r hr v hv _
  simp only [List.mem_singleton] at hr hv
  subst hr
  subst hv
  rw [radarD_eq]
  show vehC.edge ∈ ["e1"]
  simp [vehC]
